import Mathlib

/-!
Verification development for the AGSA government-services portal
(React/TypeScript frontend `src/` plus a Django backend whose chat views are
described by the accompanying specification).

The frontend source is embedded directly: `src/pages/Chat.tsx` (the current,
gateway-backed chat page and the superseded keyword-scripted one),
`src/services/api.ts` (`ApiClient.makeRequest`), `src/services/auth.ts`
(`AuthService.validateAndFormatPhoneNumber`, `requestOTP`, `signUp`) and
`src/services/chat.ts` (DTO shapes).

The backend Session/Context Manager and Model Gateway are not part of the
frontend sources; where a property depends on them they are modelled from the
specification, and each such definition is marked `Modelled from the spec:`.

String operations from the sources (`trim`, `startsWith`, `includes`,
`replace`, `toLowerCase`) are embedded as structurally recursive
functions over `List Char` so that all proofs can be checked by evaluation.
-/

set_option maxRecDepth 2000

namespace Agsa

/-! ## String primitives (embeddings of the JS string operations used) -/

/-- Whitespace characters recognised by `String.prototype.trim` (the ASCII
subset that can actually occur in the chat input). -/
def isWsChar (c : Char) : Bool :=
  c == ' ' || c == '\t' || c == '\n' || c == '\r' || c == '\x0b' || c == '\x0c'

/-- The list `l` with leading and trailing whitespace removed. -/
def trimList (l : List Char) : List Char :=
  ((l.dropWhile isWsChar).reverse.dropWhile isWsChar).reverse

/-- Embedding of `s.trim()`. -/
def jsTrim (s : String) : String := ⟨trimList s.data⟩

/-- Embedding of `s.replace(/\D/g, '')`: keep only decimal digits. -/
def cleanDigits (s : String) : String := ⟨s.data.filter Char.isDigit⟩

/-- Embedding of `s.startsWith(p)`. -/
def strStartsWith (s p : String) : Bool := p.data.isPrefixOf s.data

/-- Embedding of `s.toLowerCase()` (ASCII case folding, which is all the
keyword matcher compares against). -/
def lowerStr (s : String) : String := ⟨s.data.map Char.toLower⟩

/-- Tests whether `needle` occurs as a contiguous infix of `hay`. -/
def listContains (needle hay : List Char) : Bool :=
  match hay with
  | [] => needle.isEmpty
  | _ :: t => needle.isPrefixOf hay || listContains needle t

/-- Embedding of `s.includes(sub)`. -/
def strIncludes (s sub : String) : Bool := listContains sub.data s.data

/-! ## AuthService phone-number validation (src/services/auth.ts) -/

/-- Embedding of the anchored regex test `/^\+91[6-9]\d{9}$/.test s` used by
`AuthService.validateAndFormatPhoneNumber`. -/
def matchesIndianMobile (s : String) : Bool :=
  match s.data with
  | '+' :: '9' :: '1' :: d :: rest =>
      (d == '6' || d == '7' || d == '8' || d == '9') &&
      rest.length == 9 && rest.all Char.isDigit
  | _ => false

/-- Spec-side characterisation of the canonical form `^\+91[6-9]\d{9}$`:
a plus sign, the country code 91, a first digit in 6..9, then nine more
decimal digits. Stated independently of the regex test in the code. -/
def IsCanonicalIndianMobile (s : String) : Prop :=
  ∃ d rest, s.data = '+' :: '9' :: '1' :: d :: rest ∧
    (d = '6' ∨ d = '7' ∨ d = '8' ∨ d = '9') ∧
    rest.length = 9 ∧ ∀ c ∈ rest, c.isDigit

/-- Error message thrown when no formatting branch applies. -/
def invalidFormatMsg : String :=
  "Invalid phone number format. Please enter a valid Indian mobile number."

/-- Error message thrown when the regex test fails. -/
def invalidStartMsg : String :=
  "Please enter a valid Indian mobile number starting with 6, 7, 8, or 9."

/-- First stage of `AuthService.validateAndFormatPhoneNumber`
(src/services/auth.ts lines 675-692): choose `formatted` from the three
accepted input shapes, else throw the format error. -/
def formatPhone (phoneNumber : String) : Except String String :=
  let cleaned := cleanDigits phoneNumber
  if strStartsWith cleaned "91" && cleaned.data.length == 12 then
    .ok ("+" ++ cleaned)
  else if cleaned.data.length == 10 then
    .ok ("+91" ++ cleaned)
  else if strStartsWith phoneNumber "+91" && cleaned.data.length == 12 then
    .ok phoneNumber
  else
    .error invalidFormatMsg

/-- Embedding of `AuthService.validateAndFormatPhoneNumber`
(src/services/auth.ts lines 674-701). Thrown `Error`s become `Except.error`;
the second stage re-tests `formatted` against the anchored regex. -/
def validateAndFormatPhoneNumber (phoneNumber : String) : Except String String :=
  match formatPhone phoneNumber with
  | .error e => .error e
  | .ok formatted =>
      if matchesIndianMobile formatted then .ok formatted
      else .error invalidStartMsg

/-- Payload of `POST /api/auth/request-otp/` (interface `AuthRequest`). -/
structure AuthRequest where
  phone_number : String
  deriving Repr, DecidableEq

/-- Embedding of `AuthService.requestOTP`: the `phone_number` it sends is the
result of `validateAndFormatPhoneNumber` (or the call throws before posting). -/
def requestOTP (phoneNumber : String) : Except String AuthRequest :=
  (validateAndFormatPhoneNumber phoneNumber).map ({ phone_number := · })

inductive Gender | M | F | O
  deriving Repr, DecidableEq

/-- Payload of `POST /api/auth/signup/` (interface `SignUpRequest`). -/
structure SignUpRequest where
  phone_number : String
  name : String
  email : Option String
  date_of_birth : String
  gender : Gender
  address : String
  deriving Repr, DecidableEq

/-- Embedding of `AuthService.signUp`: the posted body is the sign-up data with
`phone_number` replaced by the validated, formatted number. -/
def signUpPayload (d : SignUpRequest) : Except String SignUpRequest :=
  (validateAndFormatPhoneNumber d.phone_number).map
    (fun p => { d with phone_number := p })

/-! ## ApiClient.makeRequest (src/services/api.ts lines 74-138) -/

/-- The JSON body a non-ok response may carry (`errorData.message` /
`errorData.error`); `none` in a field means the key is absent. -/
structure ErrorBody where
  message : Option String
  error : Option String
  deriving Repr, DecidableEq

/-- JS `||` applied to an optional string: an absent field and the empty
string are both falsy and fall through to the next alternative. -/
def jsOrStr : Option String → Option String
  | some s => if s.data.isEmpty then none else some s
  | none => none

/-- Embedding of `response.ok`: status in the inclusive range 200-299. -/
def okStatus (status : Nat) : Bool := 200 ≤ status && status ≤ 299

/-- The message of the `Error` thrown for a non-ok response:
`errorData.message || errorData.error ||` the text `HTTP <status>`, where a failed
`response.json()` on the error path yields `{}` (both fields absent). -/
def httpErrorMessage (status : Nat) (errorJson : Option ErrorBody) : String :=
  let ed := errorJson.getD ⟨none, none⟩
  match jsOrStr ed.message with
  | some m => m
  | none =>
      match jsOrStr ed.error with
      | some m => m
      | none => "HTTP " ++ toString status

/-- What `makeRequest` observes from `fetch` and body parsing:
either the promise rejected (`networkError`, carrying the `Error` message if
the rejection value was an `Error` instance), or a response arrived with a
status, the parse of its body as error JSON, and the parse of its body as the
typed payload. -/
inductive FetchOutcome (β : Type) where
  | networkError (msg : Option String)
  | response (status : Nat) (errorJson : Option ErrorBody)
      (bodyJson : Except String β)
  deriving Repr

/-- Embedding of `ApiClient.makeRequest`: thrown `Error`s become
`Except.error`. On a non-ok status it throws the server-supplied message; on
an ok status it returns `response.json()`, whose own parse failure is an
`Error` rethrown by the outer catch; a rejection that is not an `Error`
instance is wrapped as the fixed network-error text. -/
def makeRequest {β : Type} (o : FetchOutcome β) : Except String β :=
  match o with
  | .networkError msg => .error (msg.getD "Network error occurred")
  | .response status errorJson bodyJson =>
      if okStatus status then bodyJson
      else .error (httpErrorMessage status errorJson)

/-! ## Chat data model (src/services/chat.ts, src/pages/Chat.tsx) -/

/-- A TS value held by an optional string field such as
`intent_category?: string` as the strict comparisons in `Chat.tsx` see it:
the key may be absent (`undef`), JSON `null`, or a string. -/
inductive TSStr where
  | undef
  | null
  | str (s : String)
  deriving Repr, DecidableEq, BEq

/-- A TS value held by an optional number field such as
`confidence_score?: number`. -/
inductive TSNum where
  | undef
  | null
  | num (q : ℚ)
  deriving Repr, DecidableEq, BEq

/-- Sender of a message (user, assistant or system). -/
inductive Sender where
  | user
  | assistant
  | system
  deriving Repr, DecidableEq

/-- Message type of a chat message (text, status, summary or system). -/
inductive UiMsgType where
  | text
  | status
  | summary
  | system
  deriving Repr, DecidableEq

/-- Interface `ChatMessage` from src/services/chat.ts (lines 7-17). -/
structure ChatMessageDto where
  message_id : String
  content : String
  sender : Sender
  message_type : UiMsgType
  timestamp : String
  intent_category : TSStr
  confidence_score : TSNum
  extracted_entities : Option (List (String × String))
  action_required : Option Bool
  deriving Repr, DecidableEq

/-- Interface `ConversationContext` from src/services/chat.ts (lines 30-37). -/
structure ConversationContextDto where
  current_flow : String
  user_intent : String
  extracted_data : List (String × String)
  pending_actions : List String
  conversation_summary : String
  last_updated : String
  deriving Repr, DecidableEq

/-- Interface `SendMessageResponse` from src/services/chat.ts (lines 45-50). -/
structure SendMessageResponse where
  session_id : String
  user_message : ChatMessageDto
  assistant_message : ChatMessageDto
  context : ConversationContextDto
  deriving Repr, DecidableEq

/-- A rendered chat message as kept in the `messages` state of `Chat.tsx`
(interface `Message`); the random `id` string is not modelled, timestamps are
abstracted to naturals. -/
structure UiMessage where
  content : String
  sender : Sender
  mtype : UiMsgType
  isAIGenerated : Bool
  timestamp : Nat
  deriving Repr, DecidableEq

/-- Embedding of `addMessage` in the current `Chat.tsx` (concatenated file
lines 532-550): `setMessages(prev => [...prev, newMessage])`. -/
def addMessage (msgs : List UiMessage) (content : String) (sender : Sender)
    (mtype : UiMsgType) (isAIGenerated : Bool) (t : Nat) : List UiMessage :=
  msgs ++ [⟨content, sender, mtype, isAIGenerated, t⟩]

/-- Strict test `v !== null` for an optional string field (note that
`undefined !== null` is true in JS). -/
def tsStrNotNull : TSStr → Bool
  | .null => false
  | _ => true

/-- Strict test `v !== s` for an optional string field against a string
literal. -/
def tsStrNotEq (v : TSStr) (s : String) : Bool :=
  match v with
  | .str t => t != s
  | _ => true

/-- Strict presence test `v !== null && v !== undefined` for an optional
number field. -/
def tsNumPresent : TSNum → Bool
  | .num _ => true
  | _ => false

/-- Embedding of the `isFromAI` computation in `handleSubmit`
(Chat.tsx lines 596-599): `confidence_score !== null && confidence_score !==
undefined && intent_category !== null && intent_category !==
"llm_unavailable"`. -/
def isFromAI (conf : TSNum) (intent : TSStr) : Bool :=
  tsNumPresent conf && tsStrNotNull intent && tsStrNotEq intent "llm_unavailable"

/-- Embedding of `isLLMUnavailable` (Chat.tsx line 602):
`intent_category === "llm_unavailable"` (strict equality is true only when
the field holds that very string). -/
def isLLMUnavailable (intent : TSStr) : Bool :=
  match intent with
  | .str s => s == "llm_unavailable"
  | _ => false

/-- The message type the assistant turn is rendered with (Chat.tsx line 616):
`isLLMUnavailable ? "status" : response.assistant_message.message_type`. -/
def renderedMessageType (intent : TSStr) (mtype : UiMsgType) : UiMsgType :=
  if isLLMUnavailable intent then .status else mtype

/-- The fixed notice shown when `chatService.sendMessage` throws
(Chat.tsx lines 637-642). -/
def serviceInterruptionNotice : String :=
  "I\x27m currently unable to process your request due to a service interruption. Please try again in a few moments."

/-- What `handleSubmit` observes from `await chatService.sendMessage(...)`:
the promise either rejects or resolves with a `SendMessageResponse`. -/
inductive ApiOutcome where
  | failure (err : String)
  | success (resp : SendMessageResponse)
  deriving Repr

/-- Embedding of the effect of `handleSubmit` (current `Chat.tsx`,
concatenated file lines 552-657) on the rendered message list. The guard
`if (!inputValue.trim() || isTyping) return;` leaves the list unchanged;
otherwise the user message is appended, then either the fixed
service-interruption status notice (on a thrown error) or the assistant
message with `renderedMessageType` and the `isFromAI` flag. -/
def handleSubmit (msgs : List UiMessage) (inputValue : String)
    (isTyping : Bool) (o : ApiOutcome) (t₁ t₂ : Nat) : List UiMessage :=
  if (jsTrim inputValue).data.isEmpty || isTyping then msgs
  else
    let afterUser := addMessage msgs inputValue .user .text false t₁
    match o with
    | .failure _ =>
        addMessage afterUser serviceInterruptionNotice .assistant .status
          false t₂
    | .success r =>
        addMessage afterUser r.assistant_message.content .assistant
          (renderedMessageType r.assistant_message.intent_category
            r.assistant_message.message_type)
          (isFromAI r.assistant_message.confidence_score
            r.assistant_message.intent_category) t₂

/-- Whether `handleSubmit` reaches the `chatService.sendMessage` call:
exactly when the guard does not return early. -/
def handleSubmitCallsApi (inputValue : String) (isTyping : Bool) : Bool :=
  !((jsTrim inputValue).data.isEmpty || isTyping)

/-! ## The superseded keyword-scripted responder (old `Chat.tsx`,
concatenated file lines 54-108) -/

def schemesCheckingMsg : String :=
  "I\x27ll help you find relevant government schemes. Let me check your eligibility based on your profile..."

def schemesFoundMsg : String :=
  "✅ Found 3 schemes you\x27re eligible for:\n\n1. **Pradhan Mantri Awas Yojana** - Housing subsidy\n2. **Kisan Credit Card** - Agricultural credit\n3. **Mudra Loan Scheme** - Business loan\n\nShall I proceed to verify your documents for these schemes?"

def docsVerifyingMsg : String :=
  "Let me verify your documents from DigiLocker..."

def docsCompleteMsg : String :=
  "📄 Document verification complete:\n\n✅ Aadhaar Card - Verified\n✅ PAN Card - Verified\n✅ Income Certificate - Verified\n⚠️ Bank Statement - Need recent copy\n\nWould you like me to prepare the application forms?"

def summaryPreparingMsg : String :=
  "Preparing your application summary..."

def applicationSummaryMsg : String :=
  "🎯 **Application Summary**\n\n**Scheme:** Pradhan Mantri Awas Yojana\n**Subsidy Amount:** ₹2,50,000\n**Processing Time:** 15-30 days\n\n**Next Steps:**\n1. Upload recent bank statement\n2. Review pre-filled application\n3. Digital signature & submit\n\nShall I proceed with the application?"

def genericHelpMsg : String :=
  "I understand you\x27re looking for help with government services. I can assist you with:\n\n• Finding eligible schemes and benefits\n• Document verification\n• Application form assistance\n• Status tracking\n\nWhat specific service do you need help with?"

/-- Embedding of `simulateAssistantResponse` from the superseded `Chat.tsx`:
the sequence of `(content, type)` pairs it appends for a given user message
(the keyword match is on the lower-cased message). -/
def simulateAssistantResponse (userMessage : String) :
    List (String × UiMsgType) :=
  if strIncludes (lowerStr userMessage) "scheme" ||
      strIncludes (lowerStr userMessage) "benefit" ||
      strIncludes (lowerStr userMessage) "subsidy" then
    [(schemesCheckingMsg, .status), (schemesFoundMsg, .text)]
  else if strIncludes (lowerStr userMessage) "document" ||
      strIncludes (lowerStr userMessage) "verify" ||
      strIncludes (lowerStr userMessage) "yes" then
    [(docsVerifyingMsg, .status), (docsCompleteMsg, .text)]
  else if strIncludes (lowerStr userMessage) "form" ||
      strIncludes (lowerStr userMessage) "application" ||
      strIncludes (lowerStr userMessage) "prepare" then
    [(summaryPreparingMsg, .status), (applicationSummaryMsg, .summary)]
  else
    [(genericHelpMsg, .text)]

/-! ## Session/Context Manager (backend)

The Django chat views and `ai_service.py` are not among the frontend sources;
the definitions below are modelled from the specification (sections 3, 4.1
and 7) and are marked as such. -/

/-- Error taxonomy of the spec (section 7). -/
inductive ChatError where
  | InvalidInput
  | NotFound
  | StorageUnavailable
  deriving Repr, DecidableEq

/-- Modelled from the spec: the status notice persisted when the Model
Gateway reports the model unreachable ("a Message of kind `status` whose
content states that the assistant is temporarily unavailable"). -/
def temporarilyUnavailableNotice : String :=
  "The AI assistant is temporarily unavailable. Please try again later."

/-- Modelled from the spec: the classifier fields an assistant Message copies
from the ExternalModelReply, which drive the context merge of section 4.1(e)
(entities/flow/intent last-write-wins per field, summary replaced wholesale
when the reply carries one). -/
structure ReplyData where
  intent : Option String
  flow : Option String
  entities : List (String × String)
  actions : List String
  summary : Option String
  deriving Repr, DecidableEq

/-- Modelled from the spec: a persisted chat Message (section 3); assistant
messages carry the `ReplyData` copied from the model reply, user and plain
status messages carry none. -/
structure BMessage where
  role : Sender
  kind : UiMsgType
  content : String
  reply : Option ReplyData
  deriving Repr, DecidableEq

/-- Modelled from the spec: the derived ConversationContext (section 3). -/
structure ConversationContext where
  current_flow : String
  user_intent : String
  extracted_data : List (String × String)
  pending_actions : List String
  conversation_summary : String
  deriving Repr, DecidableEq

/-- The context of a fresh session: everything empty. -/
def emptyContext : ConversationContext := ⟨"", "", [], [], ""⟩

/-- Insert a key/value pair, last-write-wins per key. -/
def insertKV (m : List (String × String)) (kv : String × String) :
    List (String × String) :=
  m.filter (fun e => e.1 != kv.1) ++ [kv]

/-- Modelled from the spec: merge the reply fields into the context —
last-write-wins per field, the rolling summary replaced wholesale when the
reply carries one (section 4.1(e)). -/
def applyReply (ctx : ConversationContext) (r : ReplyData) :
    ConversationContext :=
  { current_flow := r.flow.getD ctx.current_flow
    user_intent := r.intent.getD ctx.user_intent
    extracted_data := r.entities.foldl insertKV ctx.extracted_data
    pending_actions := r.actions
    conversation_summary := r.summary.getD ctx.conversation_summary }

/-- The context update a single persisted Message induces: only a message
carrying reply data changes the context. -/
def applyMessage (ctx : ConversationContext) (m : BMessage) :
    ConversationContext :=
  match m.reply with
  | none => ctx
  | some r => applyReply ctx r

/-- Modelled from the spec: the message log of a session plus the cached
ConversationContext the manager stores alongside it. -/
structure SessionState where
  messages : List BMessage
  cachedContext : ConversationContext
  deriving Repr, DecidableEq

/-- A freshly created session: no messages, empty context (section 4.1,
createSession). -/
def initialSession : SessionState := ⟨[], emptyContext⟩

/-- Re-derive the context by replaying all messages in creation order. -/
def replayContext (msgs : List BMessage) : ConversationContext :=
  msgs.foldl applyMessage emptyContext

/-- Modelled from the spec: what the Session/Context Manager observes from
the Model Gateway for one turn — a structured reply (content, reported kind,
classifier fields) or `ModelUnreachable`. -/
inductive GatewayOutcome where
  | ok (content : String) (kind : UiMsgType) (r : ReplyData)
  | unreachable
  deriving Repr

/-- Modelled from the spec: the reply data recorded for an unreachable-model
status message — the failure reason is recorded as the sentinel intent, no
entities, no summary replacement (sections 4.1 and 7). -/
def unreachableReplyData : ReplyData :=
  ⟨some "llm_unavailable", none, [], [], none⟩

/-- Modelled from the spec: maximum accepted message length (section 4.1,
appendUserMessage: "fails with `InvalidInput` if empty or exceeds a maximum
length, e.g. 8,000 characters"). -/
def maxMessageLength : Nat := 8000

/-- Result of one chat turn: the session state afterwards, the outcome, and
how many times the external gateway was invoked. -/
structure TurnOutput where
  finalState : SessionState
  result : Except ChatError (BMessage × BMessage)
  gatewayCalls : Nat
  deriving Repr

/-- Modelled from the spec: `appendUserMessage` + `produceAssistantTurn`
(section 4.1) — validate the text, append the user Message, call the gateway
once, append the assistant Message (kind `status` with the fixed notice when
the gateway reports the model unreachable, otherwise the reported kind), and
update the cached context from the appended message. Validation failures
change nothing and never reach the gateway. -/
def processTurn (st : SessionState) (text : String) (g : GatewayOutcome) :
    TurnOutput :=
  if (jsTrim text).data.isEmpty then ⟨st, .error .InvalidInput, 0⟩
  else if maxMessageLength < text.data.length then
    ⟨st, .error .InvalidInput, 0⟩
  else
    let um : BMessage := ⟨.user, .text, text, none⟩
    let am : BMessage :=
      match g with
      | .ok content kind r => ⟨.assistant, kind, content, some r⟩
      | .unreachable =>
          ⟨.assistant, .status, temporarilyUnavailableNotice,
            some unreachableReplyData⟩
    ⟨⟨st.messages ++ [um, am],
        applyMessage (applyMessage st.cachedContext um) am⟩,
      .ok (um, am), 1⟩

/-- The session states reachable from a freshly created session by chat
turns. -/
inductive Reachable : SessionState → Prop where
  | init : Reachable initialSession
  | step (st : SessionState) (text : String) (g : GatewayOutcome) :
      Reachable st → Reachable (processTurn st text g).finalState

/-- Modelled from the spec: a stored session with its owning user
(section 3, ConversationSession). -/
structure StoredSession where
  owner : String
  state : SessionState
  deriving Repr, DecidableEq

/-- Look a session up by identifier in the session store. -/
def lookupSession (store : List (String × StoredSession)) (sid : String) :
    Option StoredSession :=
  (store.find? (fun e => e.1 == sid)).map (·.2)

/-- Modelled from the spec: `getSession(sessionId, user)` — fails with
`NotFound` if the session does not exist or does not belong to `user`
(section 4.1). -/
def getSession (store : List (String × StoredSession)) (sid user : String) :
    Except ChatError StoredSession :=
  match lookupSession store sid with
  | none => .error .NotFound
  | some s => if s.owner == user then .ok s else .error .NotFound

/-- Modelled from the spec: the send-message operation as invoked by a user —
ownership check first, then the turn pipeline. -/
def sendMessageAuth (store : List (String × StoredSession))
    (sid user text : String) (g : GatewayOutcome) :
    Except ChatError (BMessage × BMessage) :=
  match getSession store sid user with
  | .error e => .error e
  | .ok s => (processTurn s.state text g).result

/-! ## Model Gateway output parsing

`ai_service.py` is not among the frontend sources; the parsing policy is
modelled from the specification (section 4.2). -/

/-- Embedding of `s.endsWith(p)`. -/
def strEndsWith (s p : String) : Bool := p.data.isSuffixOf s.data

/-- Drop the first `n` characters. -/
def strDrop (s : String) (n : Nat) : String := ⟨s.data.drop n⟩

/-- Drop the last `n` characters. -/
def strDropRight (s : String) (n : Nat) : String :=
  ⟨s.data.take (s.data.length - n)⟩

/-- Modelled from the spec: strip an optional fenced code block from the raw
model output before parsing (section 4.2, parsing policy). -/
def stripCodeFence (raw : String) : String :=
  let t := jsTrim raw
  if strStartsWith t "```json" && strEndsWith t "```" then
    jsTrim (strDropRight (strDrop t 7) 3)
  else if strStartsWith t "```" && strEndsWith t "```" then
    jsTrim (strDropRight (strDrop t 3) 3)
  else raw

/-- Modelled from the spec: the structured JSON reply shape the gateway
expects — `{ category, intent, confidence, response, action_plan[],
required_documents[], eligible_schemes[], next_steps }` (section 4.2). -/
structure GatewayReply where
  category : String
  intent : Option String
  confidence : Option ℚ
  response : String
  action_plan : List String
  required_documents : List String
  eligible_schemes : List String
  next_steps : String
  deriving Repr, DecidableEq

/-- Modelled from the spec: the sentinel category used when structured output
could not be classified. -/
def unclassifiedCategory : String := "unclassified"

/-- Modelled from the spec: on a parse failure the gateway falls back to
treating the raw text as the `response` field with `category` unclassified
and `confidence` absent (section 4.2). -/
def fallbackReply (raw : String) : GatewayReply :=
  { category := unclassifiedCategory, intent := none, confidence := none,
    response := raw, action_plan := [], required_documents := [],
    eligible_schemes := [], next_steps := "" }

/-- Modelled from the spec: how the gateway handles a raw model output for
any JSON parser `parse` — strip fencing, parse, and fall back gracefully
instead of failing the turn. -/
def parseModelOutput (parse : String → Option GatewayReply) (raw : String) :
    GatewayReply :=
  match parse (stripCodeFence raw) with
  | some r => r
  | none => fallbackReply raw

/-- Modelled from the spec: the `SendMessageResponse` the backend returns for
a turn in which the gateway reported the model unreachable — the assistant
message has kind `status`, the fixed unavailability notice as content, the
sentinel intent category, and no confidence score (sections 4.1, 6, 7). -/
def modelUnreachableResponse (sid : String) (um : ChatMessageDto)
    (ctx : ConversationContextDto) : SendMessageResponse :=
  { session_id := sid
    user_message := um
    assistant_message :=
      { message_id := "status"
        content := temporarilyUnavailableNotice
        sender := .assistant
        message_type := .status
        timestamp := ""
        intent_category := .str "llm_unavailable"
        confidence_score := .undef
        extracted_entities := none
        action_required := none }
    context := ctx }

/-- The classification predicate as the claim words it: confidence score
present (not null/undefined) and intent category present (an actual string)
and not equal to the sentinel. -/
def claimGenuine (conf : TSNum) (intent : TSStr) : Bool :=
  tsNumPresent conf &&
  (match intent with
   | .str s => s != "llm_unavailable"
   | _ => false)

/-- The amended classification predicate: confidence score present (not
null/undefined) and intent category not null and not equal to the sentinel —
an undefined intent category with a present confidence score still counts as
genuine. -/
def amendedGenuine (conf : TSNum) (intent : TSStr) : Bool :=
  tsNumPresent conf &&
  (match intent with
   | .null => false
   | .undef => true
   | .str s => s != "llm_unavailable")

/-- The full catalogue of contents the superseded scripted responder can
emit. -/
def scriptedContents : List String :=
  [schemesCheckingMsg, schemesFoundMsg, docsVerifyingMsg, docsCompleteMsg,
   summaryPreparingMsg, applicationSummaryMsg, genericHelpMsg]

/-- A fixture message of 8001 characters, one over the maximum length. -/
def longText : String := ⟨List.replicate 8001 'a'⟩

/-! ## Theorems about the phone-number validator -/

/-- The boolean regex test agrees with the structural characterisation. -/
theorem matchesIndianMobile_iff (s : String) :
    matchesIndianMobile s = true ↔ IsCanonicalIndianMobile s := by
  unfold matchesIndianMobile IsCanonicalIndianMobile
  constructor
  · intro h
    split at h
    case _ d rest heq =>
      simp only [Bool.and_eq_true, List.all_eq_true, beq_iff_eq,
        Bool.or_eq_true] at h
      exact ⟨d, rest, heq, by tauto, h.1.2, h.2⟩
    case _ => simp at h
  · rintro ⟨d, rest, heq, hd, hlen, hdig⟩
    rw [heq] at *
    simp only [Bool.and_eq_true, Bool.or_eq_true, beq_iff_eq, List.all_eq_true]
    exact ⟨⟨by tauto, by simp [hlen]⟩, hdig⟩

/-- Whenever `validateAndFormatPhoneNumber` returns (rather than throwing),
the returned string has passed the anchored regex test. -/
theorem validate_ok_passes_test {input out : String}
    (h : validateAndFormatPhoneNumber input = .ok out) :
    matchesIndianMobile out = true := by
  unfold validateAndFormatPhoneNumber at h
  rcases hf : formatPhone input with e | formatted <;> rw [hf] at h
  · exact absurd h (by simp)
  · by_cases hm : matchesIndianMobile formatted = true
    · simp only [hm, if_true] at h
      cases h; exact hm
    · simp only [Bool.not_eq_true] at hm
      simp [hm] at h

/-- C9: every input to `validateAndFormatPhoneNumber` either throws or yields
a `+91`-prefixed ten-digit Indian mobile number starting with 6-9, and the
`phone_number` values sent by `requestOTP` and `signUp` are always in that
canonical form. -/
theorem C9_phone_numbers_canonical (input : String) (d : SignUpRequest) :
    (∀ out, validateAndFormatPhoneNumber input = .ok out →
      IsCanonicalIndianMobile out) ∧
    (∀ p, requestOTP input = .ok p → IsCanonicalIndianMobile p.phone_number) ∧
    (∀ p, signUpPayload d = .ok p → IsCanonicalIndianMobile p.phone_number) := by
  refine ⟨fun out h => ?_, fun p h => ?_, fun p h => ?_⟩
  · exact (matchesIndianMobile_iff out).mp (validate_ok_passes_test h)
  · unfold requestOTP at h
    rcases hv : validateAndFormatPhoneNumber input with e | out <;> rw [hv] at h
    · exact absurd h (by simp [Except.map])
    · simp only [Except.map, Except.ok.injEq] at h
      subst h
      exact (matchesIndianMobile_iff out).mp (validate_ok_passes_test hv)
  · unfold signUpPayload at h
    rcases hv : validateAndFormatPhoneNumber d.phone_number with e | out <;>
      rw [hv] at h
    · exact absurd h (by simp [Except.map])
    · simp only [Except.map, Except.ok.injEq] at h
      subst h
      exact (matchesIndianMobile_iff out).mp (validate_ok_passes_test hv)

/-- Witness for C9 at the concrete input `"98765 43210"`. -/
theorem C9_phone_numbers_canonical_witness :
    IsCanonicalIndianMobile (AuthRequest.mk "+919876543210").phone_number :=
  (C9_phone_numbers_canonical "98765 43210"
      ⟨"", "", none, "", .M, ""⟩).2.1 ⟨"+919876543210"⟩ rfl

/-! ## Theorems about ApiClient.makeRequest -/

/-- C10: for every response whose status lies outside 200-299 `makeRequest`
throws (the server-supplied message/error or `HTTP <status>`), network-level
failures surface only as thrown `Error`s, and a resolved value only ever
arises from the parsed body of a response with a 2xx status. -/
theorem C10_makeRequest_errors_non_ok {β : Type} (o : FetchOutcome β) :
    (∀ status ej bj, o = .response status ej bj →
      (status < 200 ∨ 299 < status) →
      makeRequest o = .error (httpErrorMessage status ej)) ∧
    (∀ m, o = .networkError m → ∃ e, makeRequest o = .error e) ∧
    (∀ b, makeRequest o = .ok b →
      ∃ status ej, o = .response status ej (.ok b) ∧ okStatus status = true) := by
  refine ⟨fun status ej bj ho hs => ?_, fun m ho => ?_, fun b h => ?_⟩
  · subst ho
    have hok : okStatus status = false := by
      simp only [okStatus, Bool.and_eq_false_iff, decide_eq_false_iff_not,
        not_le]
      omega
    simp [makeRequest, hok]
  · subst ho
    exact ⟨_, rfl⟩
  · cases o with
    | networkError m => simp [makeRequest] at h
    | response status ej bj =>
        by_cases hok : okStatus status = true
        · simp only [makeRequest, hok, if_true] at h
          exact ⟨status, ej, by rw [h], hok⟩
        · simp only [Bool.not_eq_true] at hok
          simp [makeRequest, hok] at h

/-- Witness for C10 at a concrete 404 response carrying a server error text. -/
theorem C10_makeRequest_errors_non_ok_witness :
    makeRequest (FetchOutcome.response (β := Nat) 404
      (some ⟨none, some "Not found"⟩) (.error "parse failed")) =
      .error "Not found" := by
  have h := (C10_makeRequest_errors_non_ok (FetchOutcome.response (β := Nat)
      404 (some ⟨none, some "Not found"⟩) (.error "parse failed"))).1
      404 (some ⟨none, some "Not found"⟩) (.error "parse failed") rfl
      (by omega)
  exact h.trans (by rfl)

/-! ## Theorems about the chat turn pipeline -/

/-- Every content the scripted responder can emit is in the catalogue. -/
theorem simulate_contents_in_catalogue (m : String) (p : String × UiMsgType)
    (hp : p ∈ simulateAssistantResponse m) : p.1 ∈ scriptedContents := by
  have key : simulateAssistantResponse m =
      [(schemesCheckingMsg, UiMsgType.status), (schemesFoundMsg, .text)] ∨
      simulateAssistantResponse m =
        [(docsVerifyingMsg, .status), (docsCompleteMsg, .text)] ∨
      simulateAssistantResponse m =
        [(summaryPreparingMsg, .status), (applicationSummaryMsg, .summary)] ∨
      simulateAssistantResponse m = [(genericHelpMsg, .text)] := by
    unfold simulateAssistantResponse
    repeat' split
    · exact Or.inl rfl
    · exact Or.inr (Or.inl rfl)
    · exact Or.inr (Or.inr (Or.inl rfl))
    · exact Or.inr (Or.inr (Or.inr rfl))
  rcases key with k | k | k | k <;> rw [k] at hp <;>
    simp only [List.mem_cons, List.not_mem_nil, or_false] at hp
  · rcases hp with hp | hp <;> subst hp <;> decide
  · rcases hp with hp | hp <;> subst hp <;> decide
  · rcases hp with hp | hp <;> subst hp <;> decide
  · subst hp
    decide

/-- C1: on a failed, timed-out or unreachable-model turn the rendered and
persisted assistant message has kind `status` with a fixed
temporarily-unavailable notice, and neither notice is any output of the
keyword-scripted responder — no fabricated scheme content is ever presented
in place of a real model answer. -/
theorem C1_failure_turns_are_status_notices (msgs : List UiMessage)
    (input err sid : String) (um : ChatMessageDto)
    (ctx : ConversationContextDto) (t₁ t₂ : Nat)
    (h : (jsTrim input).data.isEmpty = false) :
    (handleSubmit msgs input false (.failure err) t₁ t₂ =
      msgs ++ [⟨input, .user, .text, false, t₁⟩,
        ⟨serviceInterruptionNotice, .assistant, .status, false, t₂⟩]) ∧
    (handleSubmit msgs input false
        (.success (modelUnreachableResponse sid um ctx)) t₁ t₂ =
      msgs ++ [⟨input, .user, .text, false, t₁⟩,
        ⟨temporarilyUnavailableNotice, .assistant, .status, false, t₂⟩]) ∧
    (∀ m p, p ∈ simulateAssistantResponse m →
      p.1 ≠ serviceInterruptionNotice ∧
      p.1 ≠ temporarilyUnavailableNotice) := by
  refine ⟨?_, ?_, fun m p hp => ?_⟩
  · simp [handleSubmit, h, addMessage]
  · simp [handleSubmit, h, addMessage, modelUnreachableResponse,
      renderedMessageType, isLLMUnavailable, isFromAI, tsNumPresent]
  · have hc := simulate_contents_in_catalogue m p hp
    have h1 : serviceInterruptionNotice ∉ scriptedContents := by decide
    have h2 : temporarilyUnavailableNotice ∉ scriptedContents := by decide
    exact ⟨fun he => h1 (he ▸ hc), fun he => h2 (he ▸ hc)⟩

/-- Witness for C1: a concrete failed turn renders the fixed status notice. -/
theorem C1_failure_turns_are_status_notices_witness :
    handleSubmit [] "hello" false (.failure "boom") 0 1 =
      [⟨"hello", .user, .text, false, 0⟩,
       ⟨serviceInterruptionNotice, .assistant, .status, false, 1⟩] :=
  (C1_failure_turns_are_status_notices [] "hello" "boom" "s"
    ⟨"", "", .user, .text, "", .undef, .undef, none, none⟩
    ⟨"", "", [], [], "", ""⟩ 0 1 (by decide)).1

/-- C2: for a session the user does not own — or one that does not exist at
all — `getSession` and sending a message fail with `NotFound`, and the two
cases produce identical responses, so the existence of the session is never
revealed. -/
theorem C2_foreign_sessions_indistinguishable
    (store : List (String × StoredSession)) (sid sid' user text : String)
    (g : GatewayOutcome)
    (hOwn : ∀ s, lookupSession store sid = some s → s.owner ≠ user)
    (hAbsent : lookupSession store sid' = none) :
    getSession store sid user = .error .NotFound ∧
    sendMessageAuth store sid user text g = .error .NotFound ∧
    getSession store sid user = getSession store sid' user ∧
    sendMessageAuth store sid user text g =
      sendMessageAuth store sid' user text g := by
  have h1 : getSession store sid user = .error .NotFound := by
    unfold getSession
    rcases hl : lookupSession store sid with _ | s
    · rfl
    · have hne := hOwn s hl
      simp [hne]
  have h2 : getSession store sid' user = .error .NotFound := by
    unfold getSession
    rw [hAbsent]
  refine ⟨h1, ?_, by rw [h1, h2], ?_⟩
  · unfold sendMessageAuth
    rw [h1]
  · unfold sendMessageAuth
    rw [h1, h2]

/-- Witness for C2: a store holding a session of alice, probed by bob with that
identifier and with a nonexistent one. -/
theorem C2_foreign_sessions_indistinguishable_witness :
    getSession [("s1", ⟨"alice", initialSession⟩)] "s1" "bob" =
      .error .NotFound :=
  (C2_foreign_sessions_indistinguishable
    [("s1", ⟨"alice", initialSession⟩)] "s1" "nope" "bob" "hi" .unreachable
    (fun s hs => by
      injection hs with h
      subst h
      decide)
    rfl).1

/-- C3: at every reachable session state, replaying the messages of the session in
creation order re-derives exactly the cached ConversationContext. -/
theorem C3_cache_equals_replay (st : SessionState) (h : Reachable st) :
    replayContext st.messages = st.cachedContext := by
  induction h with
  | init => rfl
  | step st text g _ ih =>
      unfold processTurn
      split
      · exact ih
      · split
        · exact ih
        · unfold replayContext at ih ⊢
          simp only [List.foldl_append, List.foldl_cons, List.foldl_nil]
          rw [ih]

/-- Witness for C3 at a concrete state reached by one successful turn. -/
theorem C3_cache_equals_replay_witness :
    replayContext (processTurn initialSession "hello"
      (.ok "hi" .text
        ⟨some "greet", some "chat", [("k", "v")], ["a1"], some "sum"⟩)
      ).finalState.messages =
    (processTurn initialSession "hello"
      (.ok "hi" .text
        ⟨some "greet", some "chat", [("k", "v")], ["a1"], some "sum"⟩)
      ).finalState.cachedContext :=
  C3_cache_equals_replay _ (Reachable.step _ _ _ Reachable.init)

/-- C4: an empty or whitespace-only input is rejected before any external
call — the UI guard leaves the message list unchanged and never reaches
`chatService.sendMessage`, and the backend turn pipeline fails with
`InvalidInput`, changes nothing, and never invokes the gateway. -/
theorem C4_whitespace_rejected_before_gateway (msgs : List UiMessage)
    (input : String) (isTyping : Bool) (o : ApiOutcome) (t₁ t₂ : Nat)
    (st : SessionState) (g : GatewayOutcome)
    (h : (jsTrim input).data.isEmpty = true) :
    handleSubmit msgs input isTyping o t₁ t₂ = msgs ∧
    handleSubmitCallsApi input isTyping = false ∧
    (processTurn st input g).result = .error .InvalidInput ∧
    (processTurn st input g).finalState = st ∧
    (processTurn st input g).gatewayCalls = 0 := by
  refine ⟨?_, ?_, ?_, ?_, ?_⟩ <;>
    simp [handleSubmit, handleSubmitCallsApi, processTurn, h]

/-- Witness for C4 at the whitespace-only input `"   "`. -/
theorem C4_whitespace_rejected_before_gateway_witness :
    (processTurn initialSession "   " .unreachable).result =
      .error .InvalidInput :=
  (C4_whitespace_rejected_before_gateway [] "   " false (.failure "e") 0 0
    initialSession .unreachable (by decide)).2.2.1

/-- C5: any raw model output the JSON parser rejects (after stripping an
optional fenced code block) still yields a usable reply — the raw text as
`response`, the unclassified sentinel as `category`, `confidence` absent —
instead of an unhandled failure. -/
theorem C5_malformed_output_degrades_gracefully
    (parse : String → Option GatewayReply) (raw : String)
    (h : parse (stripCodeFence raw) = none) :
    parseModelOutput parse raw =
      { category := unclassifiedCategory, intent := none, confidence := none,
        response := raw, action_plan := [], required_documents := [],
        eligible_schemes := [], next_steps := "" } := by
  unfold parseModelOutput
  rw [h]
  rfl

/-- Witness for C5 with a parser that rejects everything. -/
theorem C5_malformed_output_degrades_gracefully_witness :
    parseModelOutput (fun _ => none) "plain model text" =
      { category := unclassifiedCategory, intent := none, confidence := none,
        response := "plain model text", action_plan := [],
        required_documents := [], eligible_schemes := [], next_steps := "" } :=
  C5_malformed_output_degrades_gracefully (fun _ => none) "plain model text"
    rfl

/-- C6 counterexample: a response whose assistant message has a present
confidence score but an `undefined` intent category is classified and
rendered as a genuine AI answer (`isAIGenerated = true`), yet the predicate
of the claim — which requires the intent category to be present — is false
there, so the claimed "exactly when" fails. -/
theorem C6_claim_counterexample :
    (handleSubmit [] "hi" false
      (.success
        { session_id := "s"
          user_message := ⟨"u", "hi", .user, .text, "", .undef, .undef,
            none, none⟩
          assistant_message := ⟨"a", "ok", .assistant, .text, "", .undef,
            .num 1, none, none⟩
          context := ⟨"", "", [], [], "", ""⟩ }) 0 1 =
      [⟨"hi", .user, .text, false, 0⟩, ⟨"ok", .assistant, .text, true, 1⟩]) ∧
    claimGenuine (.num 1) .undef = false := by
  constructor
  · rfl
  · rfl

/-- C6 (amended): the presentation layer classifies an assistant message as
a genuine AI answer exactly when its confidence score is present and its
intent category is neither null nor the sentinel (an undefined intent with
present confidence still counts as genuine), and a message whose intent
category equals the sentinel is rendered as a `status` turn regardless of its
reported message type. -/
theorem C6_genuine_classification (conf : TSNum) (intent : TSStr)
    (mtype : UiMsgType) :
    isFromAI conf intent = amendedGenuine conf intent ∧
    (intent = .str "llm_unavailable" →
      renderedMessageType intent mtype = .status) := by
  constructor
  · cases conf <;> cases intent <;>
      simp [isFromAI, amendedGenuine, tsNumPresent, tsStrNotNull, tsStrNotEq]
  · rintro rfl
    simp [renderedMessageType, isLLMUnavailable]

/-- Witness for the amended C6 at the sentinel intent. -/
theorem C6_genuine_classification_witness :
    isFromAI (.num 1) (.str "llm_unavailable") =
      amendedGenuine (.num 1) (.str "llm_unavailable") ∧
    renderedMessageType (.str "llm_unavailable") .text = .status :=
  ⟨(C6_genuine_classification (.num 1) (.str "llm_unavailable") .text).1,
   (C6_genuine_classification (.num 1) (.str "llm_unavailable") .text).2 rfl⟩

/-- C7: the rendered message list is append-only — `addMessage` and a whole
`handleSubmit` turn only ever extend the list at the end (or leave it
unchanged), so no prior message is reordered, mutated or deleted; and when
the appended timestamps are monotone the list stays totally ordered by
creation time. -/
theorem C7_messages_append_only (msgs : List UiMessage) (input : String)
    (isTyping : Bool) (o : ApiOutcome) (t₁ t₂ : Nat) (content : String)
    (sender : Sender) (mtype : UiMsgType) (ai : Bool) (t : Nat) :
    msgs <+: addMessage msgs content sender mtype ai t ∧
    msgs <+: handleSubmit msgs input isTyping o t₁ t₂ ∧
    (List.Pairwise (fun a b => a.timestamp ≤ b.timestamp) msgs →
      (∀ m ∈ msgs, m.timestamp ≤ t₁) → t₁ ≤ t₂ →
      List.Pairwise (fun a b => a.timestamp ≤ b.timestamp)
        (handleSubmit msgs input isTyping o t₁ t₂)) := by
  refine ⟨List.prefix_append _ _, ?_, ?_⟩
  · unfold handleSubmit
    split
    · exact List.prefix_rfl
    · cases o <;>
        · simp only [addMessage, List.append_assoc]
          exact List.prefix_append _ _
  · intro hp hle hts
    unfold handleSubmit
    split
    · exact hp
    · have hcross : ∀ u : UiMessage, u.timestamp = t₁ →
        ∀ v : UiMessage, v.timestamp = t₂ →
        List.Pairwise (fun a b => a.timestamp ≤ b.timestamp)
          (msgs ++ [u, v]) := by
        intro u hu v hv
        rw [List.pairwise_append]
        refine ⟨hp, ?_, ?_⟩
        · simp [hu, hv, hts]
        · intro a ha b hb
          rcases List.mem_cons.mp hb with hb | hb
          · subst hb
            rw [hu]
            exact hle a ha
          · simp only [List.mem_singleton] at hb
            subst hb
            rw [hv]
            exact le_trans (hle a ha) hts
      cases o <;>
        · simp only [addMessage, List.append_assoc]
          exact hcross _ rfl _ rfl

/-- Witness for C7: a concrete turn extends the list and keeps it ordered. -/
theorem C7_messages_append_only_witness :
    [] <+: handleSubmit [] "hi" false (.failure "e") 0 1 ∧
    List.Pairwise (fun a b => a.timestamp ≤ b.timestamp)
      (handleSubmit [] "hi" false (.failure "e") 0 1) :=
  ⟨(C7_messages_append_only [] "hi" false (.failure "e") 0 1 "" .user .text
      false 0).2.1,
   (C7_messages_append_only [] "hi" false (.failure "e") 0 1 "" .user .text
      false 0).2.2 (by simp) (by simp) (by omega)⟩

/-- C8: a message longer than the 8,000-character maximum is rejected with
`InvalidInput`; no user Message is created and the gateway is never
invoked. -/
theorem C8_overlong_message_rejected (st : SessionState) (text : String)
    (g : GatewayOutcome) (h : maxMessageLength < text.data.length) :
    (processTurn st text g).result = .error .InvalidInput ∧
    (processTurn st text g).finalState = st ∧
    (processTurn st text g).gatewayCalls = 0 := by
  have key : processTurn st text g = ⟨st, .error .InvalidInput, 0⟩ := by
    unfold processTurn
    by_cases he : (jsTrim text).data.isEmpty = true
    · rw [if_pos he]
    · rw [if_neg he, if_pos h]
  rw [key]
  exact ⟨rfl, rfl, rfl⟩

/-- Witness for C8 at a concrete 8,001-character message. -/
theorem C8_overlong_message_rejected_witness :
    (processTurn initialSession longText .unreachable).result =
      .error .InvalidInput :=
  (C8_overlong_message_rejected initialSession longText .unreachable
    (by
      have hd : longText.data.length = 8001 := by
        show (List.replicate 8001 'a').length = 8001
        simp only [List.length_replicate]
      show maxMessageLength < longText.data.length
      rw [hd]
      norm_num [maxMessageLength])).1

end Agsa

